import Mathlib

/-!
Verification development for the deno-v2ray relay repository.

The repository contains two structurally divergent implementations of the
same VLESS-over-WebSocket relay:

* `src/unnamed/part_000` — the stream-pipe variant: WebSocket frames flow
  through `makeReadableWebSocketStream` into a `WritableStream`, a promise
  gates the remote→WebSocket pipe, and that pipe applies a tiered
  backpressure throttle and sends the 2-byte VLESS response header in its
  `start()` callback.
* `src/apps/deno-vless/src/main.ts` — the callback variant: raw
  `webSocket.onmessage` / `onerror` / `onclose` handlers, a
  `readableStreamCancel` flag, no throttle, and early-data handling inlined
  at the bottom of `processWebSocket`.

Bytes are modelled as `Nat` (values < 256 in practice; no arithmetic here
overflows), buffers as `List Nat`, WebSocket frames and TCP writes as lists
of buffers recorded in order.  The helpers imported from the external
`vless-js` package (`processVlessHeader`, `base64ToArrayBuffer`,
`closeWebSocket`) are not part of src/, so they are modelled from the spec
(sections 4.1, 4.2 and 4.3); each such definition is marked
`Modelled from the spec:` in its doc comment.  Everything else is a direct
translation of the TypeScript under src/.
-/

/-- Result record of the VLESS header codec, mirroring the destructuring at
main.ts lines 130–138 / part_000 lines 115–123.  Absent fields are `none`
(JS `undefined`). -/
structure VlessResult where
  hasError : Bool
  message : String
  portRemote : Option Nat
  addressRemote : Option String
  rawDataIndex : Option Nat
  vlessVersion : Option (List Nat)
  isUDP : Bool
deriving Repr, DecidableEq

/-- Failure result of the header codec: `hasError` with a tagged reason and
every routing field absent. -/
def errResult (msg : String) : VlessResult :=
  { hasError := true, message := msg, portRemote := none, addressRemote := none,
    rawDataIndex := none, vlessVersion := none, isUDP := false }

/-- Success result of the header codec. -/
def okResult (version : List Nat) (port : Nat) (addr : String) (idx : Nat)
    (udp : Bool) : VlessResult :=
  { hasError := false, message := "", portRemote := some port,
    addressRemote := some addr, rawDataIndex := some idx,
    vlessVersion := some version, isUDP := udp }

/-- Dotted-decimal rendering of 4 IPv4 address bytes. -/
def ipv4String (bytes : List Nat) : String :=
  String.intercalate "." (bytes.map toString)

/-- Domain-name address bytes interpreted as characters. -/
def domainString (bytes : List Nat) : String :=
  String.mk (bytes.map Char.ofNat)

/-- Hex-group rendering of 16 IPv6 address bytes (two bytes per group). -/
def ipv6String : List Nat → String
  | b1 :: b2 :: rest =>
    String.mk (Nat.toDigits 16 (b1 * 256 + b2)) ++
      (if rest.isEmpty then "" else ":" ++ ipv6String rest)
  | [b] => String.mk (Nat.toDigits 16 b)
  | [] => ""

/-- Modelled from the spec: `processVlessHeader` is imported from the external
`vless-js` package whose source is not under src/.  This follows the field
layout and failure taxonomy of spec section 4.1: version (1 byte) →
identifier (16 bytes, compared byte-for-byte against the configured value) →
additional-options length (1 byte, options skipped) → command (1 byte,
0x01 = TCP, 0x02 = UDP, else `UnsupportedCommand`) → port (2 bytes,
big-endian) → address type (0x01 = IPv4 / 0x02 = domain, length-prefixed /
0x03 = IPv6, else `UnsupportedAddressType`); `rawDataIndex` is the offset
immediately after the address value; a buffer too short for any field fails
(`TooShort` below 24 bytes, otherwise `Malformed`). -/
def processVlessHeader (buf : List Nat) (userID : List Nat) : VlessResult :=
  if buf.length < 24 then errResult "TooShort"
  else if (buf.drop 1).take 16 ≠ userID then errResult "IdentifierMismatch"
  else
    let optLen := buf.getD 17 0
    let cmdIdx := 18 + optLen
    if buf.length < cmdIdx + 4 then errResult "Malformed"
    else
      let cmd := buf.getD cmdIdx 0
      if cmd ≠ 1 ∧ cmd ≠ 2 then errResult "UnsupportedCommand"
      else
        let port := buf.getD (cmdIdx + 1) 0 * 256 + buf.getD (cmdIdx + 2) 0
        let atype := buf.getD (cmdIdx + 3) 0
        let addrIdx := cmdIdx + 4
        if atype = 1 then
          if buf.length < addrIdx + 4 then errResult "Malformed"
          else okResult (buf.take 1) port (ipv4String ((buf.drop addrIdx).take 4))
            (addrIdx + 4) (cmd == 2)
        else if atype = 2 then
          let dlen := buf.getD addrIdx 0
          if buf.length < addrIdx + 1 + dlen then errResult "Malformed"
          else okResult (buf.take 1) port
            (domainString ((buf.drop (addrIdx + 1)).take dlen))
            (addrIdx + 1 + dlen) (cmd == 2)
        else if atype = 3 then
          if buf.length < addrIdx + 16 then errResult "Malformed"
          else okResult (buf.take 1) port (ipv6String ((buf.drop addrIdx).take 16))
            (addrIdx + 16) (cmd == 2)
        else errResult "UnsupportedAddressType"

/-- JS falsiness of an optional number (`undefined` and `0` are falsy). -/
def natFalsy : Option Nat → Bool
  | none => true
  | some n => n == 0

/-- JS falsiness of an optional string (`undefined` and `""` are falsy). -/
def strFalsy : Option String → Bool
  | none => true
  | some s => s == ""

/-- JS falsiness of an optional byte array (`undefined` is falsy; an array,
even empty, is truthy). -/
def listFalsy : Option (List Nat) → Bool
  | none => true
  | some _ => false

/-- The guard of main.ts line 143 / part_000 line 128:
`hasError || !portRemote || !addressRemote || !rawDataIndex || !vlessVersion`. -/
def headerGuard (r : VlessResult) : Bool :=
  r.hasError || natFalsy r.portRemote || strFalsy r.addressRemote ||
    natFalsy r.rawDataIndex || listFalsy r.vlessVersion

/-- Value of a standard base64 alphabet character, by code point. -/
def b64Val (c : Char) : Option Nat :=
  let n := c.toNat
  if 65 ≤ n ∧ n ≤ 90 then some (n - 65)
  else if 97 ≤ n ∧ n ≤ 122 then some (n - 71)
  else if 48 ≤ n ∧ n ≤ 57 then some (n + 4)
  else if n = 43 then some 62
  else if n = 47 then some 63
  else none

/-- Base64 sextet groups to bytes; tolerates a final group of 2 or 3
characters (missing padding); a lone trailing character or any character
outside the alphabet fails. -/
def decodeB64core : List Char → Option (List Nat)
  | [] => some []
  | [_] => none
  | [a, b] =>
    match b64Val a, b64Val b with
    | some va, some vb => some [va * 4 + vb / 16]
    | _, _ => none
  | [a, b, c] =>
    match b64Val a, b64Val b, b64Val c with
    | some va, some vb, some vc =>
      some [va * 4 + vb / 16, (vb % 16) * 16 + vc / 4]
    | _, _, _ => none
  | a :: b :: c :: d :: rest =>
    match b64Val a, b64Val b, b64Val c, b64Val d, decodeB64core rest with
    | some va, some vb, some vc, some vd, some tail =>
      some ([va * 4 + vb / 16, (vb % 16) * 16 + vc / 4, (vc % 4) * 64 + vd] ++ tail)
    | _, _, _, _, _ => none

/-- Remove trailing `=` padding characters. -/
def dropPadding (cs : List Char) : List Char :=
  (cs.reverse.dropWhile (fun c => c = '=')).reverse

/-- Map the URL-safe base64 alphabet onto the standard one. -/
def urlSafeToStd (c : Char) : Char :=
  if c = '-' then '+' else if c = '_' then '/' else c

/-- Modelled from the spec: `base64ToArrayBuffer` is imported from the
external `vless-js` package (not under src/).  Spec section 4.2: an empty
string yields no payload (not an error), the URL-safe alphabet and missing
padding are tolerated, and any other malformed input is a decode error.
The first component is the optional decoded payload, the second is the
error flag tested at main.ts line 218. -/
def base64ToArrayBuffer (s : String) : Option (List Nat) × Bool :=
  if s = "" then (none, false)
  else
    match decodeB64core (dropPadding (s.data.map urlSafeToStd)) with
    | some bytes => (some bytes, false)
    | none => (none, true)

/-- Per-session state shared by both relay models.  `wsSent` collects frames
sent to the client in order; `remoteWrites` collects buffers written to the
outbound TCP connection in order; `dialAttempts` counts invocations of
`Deno.connect`; `cancel` is main.ts's `readableStreamCancel`;
`vlessRespHdr` is the computed 2-byte VLESS response header;
`remoteChunkCount` and `delays` belong to part_000's remote→WebSocket pipe
(`delays` records the throttle delay applied before each send). -/
structure SessionState where
  wsOpen : Bool := true
  wsSent : List (List Nat) := []
  hasRemote : Bool := false
  remoteClosed : Bool := false
  remoteWrites : List (List Nat) := []
  cancel : Bool := false
  address : String := ""
  portLog : String := ""
  logs : List String := []
  dialAttempts : Nat := 0
  vlessRespHdr : Option (List Nat) := none
  resolved : Bool := false
  remoteChunkCount : Nat := 0
  delays : List Nat := []
deriving Repr, DecidableEq

/-- Fresh session state at WebSocket open. -/
def initSession : SessionState := {}

/-- The `log` closure of both files: prefixes the session's address/port
context (the `Math.random` suffix of `portWithRandomLog` is abstracted into
the `portLog` string). -/
def logMsg (s : SessionState) (m : String) : SessionState :=
  { s with logs := s.logs ++ ["[" ++ s.address ++ ":" ++ s.portLog ++ "] " ++ m] }

/-- Modelled from the spec: `closeWebSocket` is imported from the external
`vless-js` package (not under src/).  Spec section 4.3: closing is guarded
by the socket's ready state, so closing an already-closed socket is a
no-op, not an error. -/
def closeWebSocket (s : SessionState) : SessionState :=
  if s.wsOpen then { s with wsOpen := false } else s

/-- `remoteConnection?.close()`: closes the outbound TCP connection when one
exists, otherwise does nothing. -/
def closeRemote (s : SessionState) : SessionState :=
  if s.hasRemote then { s with remoteClosed := true } else s

/-- The `portWithRandomLog` assignment of main.ts line 141 / part_000
line 126 (random suffix abstracted). -/
def portLogOf (r : VlessResult) : String :=
  (match r.portRemote with
   | some p => toString p
   | none => "undefined") ++ "--rnd"

/-- Log text of main.ts line 144 / part_000 line 129. -/
def vlessErrLog (r : VlessResult) : String :=
  "VLESS header processing error: " ++ r.message

/-- The `webSocket.onmessage` handler of main.ts lines 117–196.  `dialOk`
is the outcome `Deno.connect` would have (line 157), `writeOk` the outcome
of a `remoteConnection.write`.  The relay-path write at line 124 is not
inside any try/catch, so its failure escapes the handler (`Except.error`);
the dial and the trailing-raw-data write at lines 157–164 sit inside the
inner try whose catch (lines 192–195) logs and closes the WebSocket. -/
def mainOnMessage (userID : List Nat) (dialOk writeOk : Bool) (data : List Nat)
    (s : SessionState) : Except String SessionState :=
  if s.cancel then Except.ok s
  else if s.hasRemote then
    if writeOk then Except.ok { s with remoteWrites := s.remoteWrites ++ [data] }
    else Except.error "remoteConnection.write failed"
  else
    let r := processVlessHeader data userID
    let s1 := { s with address := r.addressRemote.getD "", portLog := portLogOf r }
    if headerGuard r then
      Except.ok (closeWebSocket (logMsg s1 (vlessErrLog r)))
    else if r.isUDP then
      Except.ok (closeWebSocket (logMsg s1 "UDP command is not supported"))
    else
      let s2 := { (logMsg s1 ("connecting to " ++ s1.address)) with
                  dialAttempts := s1.dialAttempts + 1 }
      if dialOk then
        let s3 := { s2 with
          hasRemote := true
          vlessRespHdr := some [(r.vlessVersion.getD []).getD 0 0, 0] }
        let rawClientData := data.drop (r.rawDataIndex.getD 0)
        if rawClientData.isEmpty then Except.ok s3
        else if writeOk then
          Except.ok { s3 with remoteWrites := s3.remoteWrites ++ [rawClientData] }
        else Except.ok (closeWebSocket (logMsg s3 "Failed to connect to remote"))
      else Except.ok (closeWebSocket (logMsg s2 "Failed to connect to remote"))

/-- The `write` callback of main.ts lines 170–177 (remote→WebSocket pipe):
send the chunk as-is when the WebSocket is open, otherwise error the
controller and close the TCP connection.  No response header is ever sent
on this path. -/
def mainOnRemoteChunk (chunk : List Nat) (s : SessionState) : SessionState :=
  if s.wsOpen then { s with wsSent := s.wsSent ++ [chunk] }
  else closeRemote s

/-- The `webSocket.onerror` handler of main.ts lines 198–202: log, set
`readableStreamCancel`, close the remote connection. -/
def mainOnError (s : SessionState) : SessionState :=
  closeRemote { (logMsg s "socket has error") with cancel := true }

/-- The `webSocket.onclose` handler of main.ts lines 204–214: log, return
early when cancelled, otherwise close the remote connection (inside a
try/catch). -/
def mainOnClose (s : SessionState) : SessionState :=
  let s1 := logMsg s "webSocket is close"
  if s1.cancel then s1 else closeRemote s1

/-- The early-data block of main.ts lines 216–232, run synchronously at the
end of `processWebSocket`: a decode error logs and closes the WebSocket;
a decoded payload is written to the remote connection only when one is
already established — the `else` branch of line 227 contains only comments,
so the payload is otherwise discarded. -/
def mainSetup (earlyDataHeader : String) (s : SessionState) : SessionState :=
  let r := base64ToArrayBuffer earlyDataHeader
  if r.2 then closeWebSocket (logMsg s "earlyDataHeader has invaild base64")
  else
    match r.1 with
    | some earlyData =>
      if s.hasRemote then { s with remoteWrites := s.remoteWrites ++ [earlyData] }
      else s
    | none => s

/-- Events delivered to a main.ts session by the runtime after setup.
`message` carries the frame bytes plus the outcomes the environment gives
to `Deno.connect` and `remoteConnection.write` during its handling. -/
inductive MainEvent
  | message : List Nat → Bool → Bool → MainEvent
  | wsError : MainEvent
  | wsClose : MainEvent
  | remoteChunk : List Nat → MainEvent
deriving Repr, DecidableEq

/-- Dispatch of one runtime event to the main.ts handlers.  Handler
invocations happen on the event loop, outside the `try` of
`processWebSocket`, so an exception escaping a handler surfaces here as
`Except.error` with nothing to catch it. -/
def mainStep (userID : List Nat) : MainEvent → SessionState → Except String SessionState
  | MainEvent.message d dOk wOk, s => mainOnMessage userID dOk wOk d s
  | MainEvent.wsError, s => Except.ok (mainOnError s)
  | MainEvent.wsClose, s => Except.ok (mainOnClose s)
  | MainEvent.remoteChunk c, s => Except.ok (mainOnRemoteChunk c s)

/-- Run a list of runtime events against a main.ts session; stops at the
first uncaught handler exception. -/
def mainRunEvents (userID : List Nat) : List MainEvent → SessionState → Except String SessionState
  | [], s => Except.ok s
  | e :: rest, s =>
    match mainStep userID e s with
    | Except.ok s2 => mainRunEvents userID rest s2
    | Except.error m => Except.error m

/-- The `write` callback of part_000's WebSocket→remote pipe (lines
107–156): identical first-frame logic to main.ts's `onmessage`, except that
there is no `readableStreamCancel` flag, a successful dial also resolves
the `remoteConnectionReadyPromise` (`resolved`), and the relay write at
line 110 likewise sits outside any try/catch so its failure rejects the
`pipeTo` promise (`Except.error`). -/
def part000OnChunk (userID : List Nat) (dialOk writeOk : Bool) (data : List Nat)
    (s : SessionState) : Except String SessionState :=
  if s.hasRemote then
    if writeOk then Except.ok { s with remoteWrites := s.remoteWrites ++ [data] }
    else Except.error "remoteConnection.write failed"
  else
    let r := processVlessHeader data userID
    let s1 := { s with address := r.addressRemote.getD "", portLog := portLogOf r }
    if headerGuard r then
      Except.ok (closeWebSocket (logMsg s1 (vlessErrLog r)))
    else if r.isUDP then
      Except.ok (closeWebSocket (logMsg s1 "UDP command is not supported"))
    else
      let s2 := { (logMsg s1 ("connecting to " ++ s1.address)) with
                  dialAttempts := s1.dialAttempts + 1 }
      if dialOk then
        let s3 := { s2 with
          hasRemote := true
          vlessRespHdr := some [(r.vlessVersion.getD []).getD 0 0, 0] }
        let rawClientData := data.drop (r.rawDataIndex.getD 0)
        if rawClientData.isEmpty then Except.ok { s3 with resolved := true }
        else if writeOk then
          Except.ok { s3 with
            remoteWrites := s3.remoteWrites ++ [rawClientData]
            resolved := true }
        else Except.ok (closeWebSocket (logMsg s3 "Failed to connect to remote"))
      else Except.ok (closeWebSocket (logMsg s2 "Failed to connect to remote"))

/-- The `.catch` handler attached to part_000's WebSocket→remote `pipeTo`
(lines 167–171): log with session context, close the WebSocket, close the
remote connection. -/
def part000PipeCatch (s : SessionState) : SessionState :=
  closeRemote (closeWebSocket
    (logMsg s "readableWebSocketStream pipeto has exception"))

/-- Run part_000's WebSocket→remote pipe over a list of chunks (each with
the dial/write outcomes the environment supplies).  A rejected step lands in
the pipe's `.catch`, which terminates piping; the run itself therefore
always returns a state and never propagates an exception. -/
def part000PipeRun (userID : List Nat) :
    List (List Nat × Bool × Bool) → SessionState → SessionState
  | [], s => s
  | (d, dOk, wOk) :: rest, s =>
    match part000OnChunk userID dOk wOk d s with
    | Except.ok s2 => part000PipeRun userID rest s2
    | Except.error _ => part000PipeCatch s

/-- The `start` callback of part_000's remote→WebSocket pipe (lines
186–190): send the 2-byte VLESS response header as the first frame when the
WebSocket is open. -/
def part000PipeStart (s : SessionState) : SessionState :=
  if s.wsOpen then { s with wsSent := s.wsSent ++ [s.vlessRespHdr.getD []] }
  else s

/-- The pure reading of part_000's throttle ladder (lines 203–214): the
delay applied for the given already-incremented chunk count. -/
def delayFor (remoteChunkCount : Nat) : Nat :=
  if remoteChunkCount < 20 then 0
  else if remoteChunkCount < 120 then 10
  else if remoteChunkCount < 500 then 20
  else 50

/-- The `write` callback of part_000's remote→WebSocket pipe (lines
191–215): when the WebSocket is not open, error the controller and close
the remote connection; otherwise increment `remoteChunkCount` once, apply
the tiered delay, and send the chunk. -/
def part000PipeWrite (chunk : List Nat) (s : SessionState) : SessionState :=
  if s.wsOpen = false then closeRemote s
  else
    let c := s.remoteChunkCount + 1
    if c < 20 then
      { s with remoteChunkCount := c, delays := s.delays ++ [0], wsSent := s.wsSent ++ [chunk] }
    else if c < 120 then
      { s with remoteChunkCount := c, delays := s.delays ++ [10], wsSent := s.wsSent ++ [chunk] }
    else if c < 500 then
      { s with remoteChunkCount := c, delays := s.delays ++ [20], wsSent := s.wsSent ++ [chunk] }
    else
      { s with remoteChunkCount := c, delays := s.delays ++ [50], wsSent := s.wsSent ++ [chunk] }

/-- Hex digit of either case or a decimal digit, as in the character class
of the UUID regex at main.ts line 22 with the case-insensitive flag. -/
def isHexDigit (c : Char) : Bool :=
  let n := c.toNat
  (48 ≤ n && n ≤ 57) || (97 ≤ n && n ≤ 102) || (65 ≤ n && n ≤ 70)

/-- Whether a character list is exactly one 8-4-4-4-12 hex UUID shape, the
fixed-length pattern of the regex at main.ts line 22. -/
def uuidShaped (cs : List Char) : Bool :=
  cs.length == 36 &&
    (List.range 36).all (fun i =>
      if i == 8 || i == 13 || i == 18 || i == 23 then cs.getD i ' ' == '-'
      else isHexDigit (cs.getD i ' '))

/-- Leftmost match of the UUID pattern, as `String.prototype.match` finds
it: the first starting position whose next 36 characters fit the shape. -/
def firstUUIDMatch : List Char → Option (List Char)
  | [] => none
  | c :: rest =>
    if uuidShaped ((c :: rest).take 36) then some ((c :: rest).take 36)
    else firstUUIDMatch rest

/-- The hardcoded default returned by `getVlessUUID` (main.ts line 26), the
same literal as the process fallback UUID (line 31). -/
def fallbackUUID : String := "6c131438-da48-459f-a236-9a45374e9a45"

/-- `getVlessUUID` of main.ts lines 18–27: the first UUID-shaped substring
of the request URL, or the hardcoded default when none is present. -/
def getVlessUUID (url : String) : String :=
  match firstUUIDMatch url.data with
  | some m => String.mk m
  | none => fallbackUUID

/-- Mirrors main.ts lines 50–60: `socket.onopen` starts `processWebSocket`
with `userID := getVlessUUID(c.req.url)`; the configured environment
identifier is not consulted on this path (hence the unused first
argument). -/
def onopenSessionUserID (configuredID : String) (url : String) : String :=
  getVlessUUID url

/-- Concrete authorized identifier bytes used by witnesses. -/
def uid0 : List Nat := List.replicate 16 0

/-- Concrete well-formed TCP header frame: version 0, identifier `uid0`, no
options, command TCP, port 80, IPv4 address 10.0.0.1, no trailing data. -/
def tcpHdr : List Nat := [0] ++ uid0 ++ [0, 1, 0, 80, 1, 10, 0, 0, 1]

/-- `tcpHdr` followed by three trailing raw payload bytes. -/
def tcpHdrTrail : List Nat := tcpHdr ++ [71, 69, 84]

/-- Concrete header frame identical to `tcpHdr` except command UDP. -/
def udpHdr : List Nat := [0] ++ uid0 ++ [0, 2, 0, 80, 1, 10, 0, 0, 1]

/-- Concrete header frame identical to `tcpHdr` except that its identifier
bytes are all 1, mismatching `uid0`. -/
def badIdHdr : List Nat := [0] ++ List.replicate 16 1 ++ [0, 1, 0, 80, 1, 10, 0, 0, 1]

/-- A session state marked cancelled (main.ts's `readableStreamCancel`). -/
def cancelledSession : SessionState := { initSession with cancel := true }

/-- A session state whose outbound TCP connection is established. -/
def connectedSession : SessionState := { initSession with hasRemote := true }

/-- Concrete upgrade URL containing one UUID-shaped substring. -/
def urlA : String := "https://example.com/aaaaaaaa-0000-0000-0000-000000000000"

/-- Concrete upgrade URL containing a different UUID-shaped substring. -/
def urlB : String := "https://example.com/bbbbbbbb-0000-0000-0000-000000000000"

theorem closeWebSocket_wsOpen (s : SessionState) : (closeWebSocket s).wsOpen = false := by
  unfold closeWebSocket
  split_ifs with h
  · rfl
  · simpa using h

theorem closeWebSocket_hasRemote (s : SessionState) :
    (closeWebSocket s).hasRemote = s.hasRemote := by
  unfold closeWebSocket
  split_ifs <;> rfl

theorem closeWebSocket_dialAttempts (s : SessionState) :
    (closeWebSocket s).dialAttempts = s.dialAttempts := by
  unfold closeWebSocket
  split_ifs <;> rfl

theorem closeWebSocket_remoteWrites (s : SessionState) :
    (closeWebSocket s).remoteWrites = s.remoteWrites := by
  unfold closeWebSocket
  split_ifs <;> rfl

theorem closeWebSocket_logs (s : SessionState) : (closeWebSocket s).logs = s.logs := by
  unfold closeWebSocket
  split_ifs <;> rfl

theorem closeRemote_wsOpen (s : SessionState) : (closeRemote s).wsOpen = s.wsOpen := by
  unfold closeRemote
  split_ifs <;> rfl

theorem closeRemote_logs (s : SessionState) : (closeRemote s).logs = s.logs := by
  unfold closeRemote
  split_ifs <;> rfl

theorem closeRemote_remoteClosed (s : SessionState) (h : s.hasRemote = true) :
    (closeRemote s).remoteClosed = true := by
  unfold closeRemote
  rw [h]
  rfl

/-- Claim C1: part_000's backpressure throttle on the TCP→WebSocket
direction increments the per-session chunk counter exactly once per chunk
before the delay decision, applies the delay given by the pure step
function `delayFor` of the incremented count, and that function is
monotonic non-decreasing with delay 0 below 20, 10 ms for 20–119, 20 ms for
120–499 and 50 ms from 500 on, with exactly the claimed boundary values. -/
theorem c1_throttle_step_and_tiers :
    (∀ chunk s, s.wsOpen = true →
      (part000PipeWrite chunk s).remoteChunkCount = s.remoteChunkCount + 1 ∧
      (part000PipeWrite chunk s).delays =
        s.delays ++ [delayFor (s.remoteChunkCount + 1)] ∧
      (part000PipeWrite chunk s).wsSent = s.wsSent ++ [chunk]) ∧
    (∀ m n, m ≤ n → delayFor m ≤ delayFor n) ∧
    delayFor 19 = 0 ∧ delayFor 20 = 10 ∧ delayFor 119 = 10 ∧
    delayFor 120 = 20 ∧ delayFor 499 = 20 ∧ delayFor 500 = 50 := by
  refine ⟨?_, ?_, by decide, by decide, by decide, by decide, by decide, by decide⟩
  · intro chunk s hws
    simp only [part000PipeWrite, delayFor, hws]
    split_ifs <;> simp_all
  · intro m n h
    unfold delayFor
    split_ifs <;> omega

/-- Witness for C1 at concrete inputs: one write step from the fresh
session records the chunk with a 0 ms delay, and the tier function is
non-decreasing between the concrete counts 20 and 500. -/
theorem c1_throttle_step_and_tiers_witness :
    ((part000PipeWrite [7] initSession).delays = [delayFor 1] ∧
      delayFor 20 ≤ delayFor 500) := by
  refine ⟨?_, c1_throttle_step_and_tiers.2.1 20 500 (by decide)⟩
  have h := (c1_throttle_step_and_tiers.1 [7] initSession rfl).2.1
  simpa using h

/-- Claim C2 (divergence witness): in main.ts, a session with a successful
TCP header decode and dial computes the 2-byte response header
`[version, 0]` (line 161) but never sends it — after a relayed remote
chunk, the frames sent to the client consist of the raw chunk alone, so
the first frame the client receives is not the response header. -/
theorem c2_main_ts_sends_no_response_header :
    (mainRunEvents uid0 [MainEvent.message tcpHdr true true,
        MainEvent.remoteChunk [104, 105]] initSession).toOption.map
      (fun s => (s.wsSent, s.vlessRespHdr)) =
      some ([[104, 105]], some [0, 0]) := by decide

/-- Claim C5 (divergence witness): main.ts's early-data block, run while
the remote connection is not yet established (as it always is, since the
block runs synchronously before any message event), decodes a present
non-empty payload from a valid header string and then leaves the session
state untouched — the payload is silently dropped, never written or
stored. -/
theorem c5_early_data_dropped :
    (base64ToArrayBuffer "AAAA").1 = some [0, 0, 0] ∧
    (base64ToArrayBuffer "AAAA").2 = false ∧
    mainSetup "AAAA" initSession = initSession := by decide

/-- Claim C10 (counterexample): in main.ts, an exception raised inside the
`webSocket.onmessage` handler after the remote connection is established —
here a failing `remoteConnection.write` at line 124, which sits outside
every try/catch — escapes the handler with nothing to catch it, because
handler invocations happen on the event loop outside the `try` of
`processWebSocket` (lines 111/234). -/
theorem c10_main_handler_exception_escapes :
    mainRunEvents uid0 [MainEvent.message tcpHdr true true,
        MainEvent.message [1, 2, 3] true false] initSession =
      Except.error "remoteConnection.write failed" := by rfl

/-- Claim C3: a first frame whose header decoding reports an error — in
particular any frame whose 16 identifier bytes differ from the configured
identifier — makes the session close the WebSocket and terminate without
throwing, and no outbound TCP connection is ever attempted (the dial
counter is untouched and no remote connection or TCP write exists), in
both the main.ts handler and the part_000 pipe. -/
theorem c3_header_error_closes_without_dial :
    (∀ buf uid, (buf.drop 1).take 16 ≠ uid →
      (processVlessHeader buf uid).hasError = true) ∧
    (∀ uid dOk wOk data s, s.cancel = false → s.hasRemote = false →
      headerGuard (processVlessHeader data uid) = true →
      ∃ s2, mainOnMessage uid dOk wOk data s = Except.ok s2 ∧
        s2.wsOpen = false ∧ s2.hasRemote = false ∧
        s2.dialAttempts = s.dialAttempts ∧ s2.remoteWrites = s.remoteWrites) ∧
    (∀ uid dOk wOk data s, s.hasRemote = false →
      headerGuard (processVlessHeader data uid) = true →
      ∃ s2, part000OnChunk uid dOk wOk data s = Except.ok s2 ∧
        s2.wsOpen = false ∧ s2.hasRemote = false ∧
        s2.dialAttempts = s.dialAttempts ∧ s2.remoteWrites = s.remoteWrites) := by
  refine ⟨?_, ?_, ?_⟩
  · intro buf uid h
    unfold processVlessHeader
    split_ifs
    · rfl
    · rfl
  · intro uid dOk wOk data s hc hr hg
    simp only [mainOnMessage, hc, hr, hg]
    simp only [Bool.false_eq_true, if_false, if_true]
    exact ⟨_, rfl, closeWebSocket_wsOpen _, closeWebSocket_hasRemote _,
      closeWebSocket_dialAttempts _, closeWebSocket_remoteWrites _⟩
  · intro uid dOk wOk data s hr hg
    simp only [part000OnChunk, hr, hg]
    simp only [Bool.false_eq_true, if_false, if_true]
    exact ⟨_, rfl, closeWebSocket_wsOpen _, closeWebSocket_hasRemote _,
      closeWebSocket_dialAttempts _, closeWebSocket_remoteWrites _⟩

/-- Witness for C3: the identifier-mismatch frame `badIdHdr` fails to
decode, and the main.ts handler on the fresh session then closes the
WebSocket without any dial attempt. -/
theorem c3_header_error_closes_without_dial_witness :
    (processVlessHeader badIdHdr uid0).hasError = true ∧
    (∃ s2, mainOnMessage uid0 true true badIdHdr initSession = Except.ok s2 ∧
      s2.wsOpen = false ∧ s2.hasRemote = false ∧
      s2.dialAttempts = initSession.dialAttempts ∧
      s2.remoteWrites = initSession.remoteWrites) :=
  ⟨c3_header_error_closes_without_dial.1 badIdHdr uid0 (by decide),
    c3_header_error_closes_without_dial.2.1 uid0 true true badIdHdr initSession
      rfl rfl (by decide)⟩

/-- Claim C6: a first frame that decodes without error to a header with
command UDP (hence a matching identifier) makes both variants close the
WebSocket and return normally — a defined rejection, not an escalated
error — with no dial attempt and no outbound connection. -/
theorem c6_udp_rejected_without_dial :
    ∀ uid dOk wOk data s,
      headerGuard (processVlessHeader data uid) = false →
      (processVlessHeader data uid).isUDP = true →
      (s.cancel = false → s.hasRemote = false →
        ∃ s2, mainOnMessage uid dOk wOk data s = Except.ok s2 ∧
          s2.wsOpen = false ∧ s2.hasRemote = false ∧
          s2.dialAttempts = s.dialAttempts ∧ s2.remoteWrites = s.remoteWrites) ∧
      (s.hasRemote = false →
        ∃ s2, part000OnChunk uid dOk wOk data s = Except.ok s2 ∧
          s2.wsOpen = false ∧ s2.hasRemote = false ∧
          s2.dialAttempts = s.dialAttempts ∧ s2.remoteWrites = s.remoteWrites) := by
  intro uid dOk wOk data s hg hu
  constructor
  · intro hc hr
    simp only [mainOnMessage, hc, hr, hg, hu]
    simp only [Bool.false_eq_true, if_false, if_true]
    exact ⟨_, rfl, closeWebSocket_wsOpen _, closeWebSocket_hasRemote _,
      closeWebSocket_dialAttempts _, closeWebSocket_remoteWrites _⟩
  · intro hr
    simp only [part000OnChunk, hr, hg, hu]
    simp only [Bool.false_eq_true, if_false, if_true]
    exact ⟨_, rfl, closeWebSocket_wsOpen _, closeWebSocket_hasRemote _,
      closeWebSocket_dialAttempts _, closeWebSocket_remoteWrites _⟩

/-- Witness for C6: the concrete UDP frame `udpHdr` decodes cleanly with
`isUDP`, and the main.ts handler on the fresh session closes the WebSocket
with no dial attempt. -/
theorem c6_udp_rejected_without_dial_witness :
    ∃ s2, mainOnMessage uid0 true true udpHdr initSession = Except.ok s2 ∧
      s2.wsOpen = false ∧ s2.hasRemote = false ∧
      s2.dialAttempts = initSession.dialAttempts ∧
      s2.remoteWrites = initSession.remoteWrites :=
  (c6_udp_rejected_without_dial uid0 true true udpHdr initSession
    (by decide) (by decide)).1 rfl rfl

/-- Claim C7: once a main.ts session is marked cancelled, a late-arriving
WebSocket frame is a complete no-op (the flag is checked first, the state
is returned unchanged, nothing is written to the TCP connection and nothing
is thrown), the close event only logs and leaves the sockets untouched, and
closing an already-closed WebSocket through `closeWebSocket` is a no-op
rather than an error. -/
theorem c7_cancelled_session_noop :
    (∀ uid dOk wOk data s, s.cancel = true →
      mainOnMessage uid dOk wOk data s = Except.ok s) ∧
    (∀ s, s.cancel = true → mainOnClose s = logMsg s "webSocket is close") ∧
    (∀ s, s.wsOpen = false → closeWebSocket s = s) := by
  refine ⟨?_, ?_, ?_⟩
  · intro uid dOk wOk data s h
    simp [mainOnMessage, h]
  · intro s h
    have h1 : (logMsg s "webSocket is close").cancel = true := h
    simp [mainOnClose, h1]
  · intro s h
    simp [closeWebSocket, h]

/-- Witness for C7 at a concrete cancelled session: a late frame leaves the
state unchanged and a closed socket closes idempotently. -/
theorem c7_cancelled_session_noop_witness :
    mainOnMessage uid0 true true [1, 2, 3] cancelledSession =
      Except.ok cancelledSession ∧
    closeWebSocket { cancelledSession with wsOpen := false } =
      { cancelledSession with wsOpen := false } :=
  ⟨c7_cancelled_session_noop.1 uid0 true true [1, 2, 3] cancelledSession rfl,
    c7_cancelled_session_noop.2.2 { cancelledSession with wsOpen := false } rfl⟩

/-- Claim C8: an early-data header string whose base64 decode fails makes
main.ts's setup block log, close the WebSocket and return normally — the
session terminates exactly as on a protocol error, with the remote state
untouched and no exception. -/
theorem c8_early_data_decode_error_terminates :
    ∀ hdr s, (base64ToArrayBuffer hdr).2 = true →
      mainSetup hdr s =
        closeWebSocket (logMsg s "earlyDataHeader has invaild base64") ∧
      (mainSetup hdr s).wsOpen = false ∧
      (mainSetup hdr s).hasRemote = s.hasRemote ∧
      (mainSetup hdr s).remoteWrites = s.remoteWrites := by
  intro hdr s h
  have he : mainSetup hdr s =
      closeWebSocket (logMsg s "earlyDataHeader has invaild base64") := by
    simp [mainSetup, h]
  refine ⟨he, ?_, ?_, ?_⟩
  · rw [he]; exact closeWebSocket_wsOpen _
  · rw [he]; exact closeWebSocket_hasRemote _
  · rw [he]; exact closeWebSocket_remoteWrites _

/-- Witness for C8 at the concrete malformed header string. -/
theorem c8_early_data_decode_error_terminates_witness :
    mainSetup "!!" initSession =
      closeWebSocket (logMsg initSession "earlyDataHeader has invaild base64") ∧
    (mainSetup "!!" initSession).wsOpen = false ∧
    (mainSetup "!!" initSession).hasRemote = initSession.hasRemote ∧
    (mainSetup "!!" initSession).remoteWrites = initSession.remoteWrites :=
  c8_early_data_decode_error_terminates "!!" initSession (by decide)

/-- Claim C9: on a session whose first frame decodes to a TCP header with a
successful dial, the non-empty trailing raw bytes (everything from
`rawDataIndex` to the end of the frame) are written verbatim to the TCP
connection, and a subsequent WebSocket frame is relayed only after them:
the write sequence is exactly trailing bytes first, then the later frame,
in both the main.ts event run and the part_000 pipe. -/
theorem c9_trailing_bytes_written_first :
    ∀ uid hdr frame2 s, s.cancel = false → s.hasRemote = false →
      s.remoteWrites = [] →
      headerGuard (processVlessHeader hdr uid) = false →
      (processVlessHeader hdr uid).isUDP = false →
      hdr.drop ((processVlessHeader hdr uid).rawDataIndex.getD 0) ≠ [] →
      (∃ s2, mainRunEvents uid [MainEvent.message hdr true true,
          MainEvent.message frame2 true true] s = Except.ok s2 ∧
        s2.remoteWrites =
          [hdr.drop ((processVlessHeader hdr uid).rawDataIndex.getD 0), frame2]) ∧
      (∃ s3 s4, part000OnChunk uid true true hdr s = Except.ok s3 ∧
        s3.remoteWrites =
          [hdr.drop ((processVlessHeader hdr uid).rawDataIndex.getD 0)] ∧
        part000OnChunk uid true true frame2 s3 = Except.ok s4 ∧
        s4.remoteWrites =
          [hdr.drop ((processVlessHeader hdr uid).rawDataIndex.getD 0), frame2]) := by
  intro uid hdr frame2 s hc hr hw hg hu hne
  have hni : (hdr.drop ((processVlessHeader hdr uid).rawDataIndex.getD 0)).isEmpty = false := by
    cases hx : hdr.drop ((processVlessHeader hdr uid).rawDataIndex.getD 0) with
    | nil => exact absurd hx hne
    | cons a t => rfl
  constructor
  · simp only [mainRunEvents, mainStep, mainOnMessage, hc, hr, hg, hu, hni]
    simp only [Bool.false_eq_true, if_false, if_true, ite_true, ite_false]
    exact ⟨_, rfl, by simp [hw, logMsg]⟩
  · simp only [part000OnChunk, hr, hg, hu, hni]
    simp only [Bool.false_eq_true, if_false, if_true, ite_true, ite_false]
    exact ⟨_, _, rfl, by simp [hw, logMsg], rfl, by simp [hw, logMsg]⟩

/-- Witness for C9: the concrete frame `tcpHdrTrail` carries three trailing
payload bytes; running the main.ts session over it and one later frame
writes exactly those bytes first, then the later frame. -/
theorem c9_trailing_bytes_written_first_witness :
    ∃ s2, mainRunEvents uid0 [MainEvent.message tcpHdrTrail true true,
        MainEvent.message [9, 9] true true] initSession = Except.ok s2 ∧
      s2.remoteWrites =
        [tcpHdrTrail.drop ((processVlessHeader tcpHdrTrail uid0).rawDataIndex.getD 0), [9, 9]] :=
  (c9_trailing_bytes_written_first uid0 tcpHdrTrail [9, 9] initSession
    rfl rfl rfl (by decide) (by decide) (by decide)).1

/-- Claim C4: on main.ts's `socket.onopen` path the session authenticates
against the identifier extracted from the client-supplied request URL — the
first UUID-shaped substring when one exists, the hardcoded default
otherwise — and never against the configured environment identifier, so two
upgrade requests whose URLs carry different first UUID-shaped substrings
are authenticated against different identifiers regardless of the
configuration. -/
theorem c4_url_determines_session_identifier :
    (∀ cfg u m, firstUUIDMatch u.data = some m →
      onopenSessionUserID cfg u = String.mk m) ∧
    (∀ cfg u, firstUUIDMatch u.data = none →
      onopenSessionUserID cfg u = fallbackUUID) ∧
    (∀ cfg1 cfg2 u1 u2 m1 m2, firstUUIDMatch u1.data = some m1 →
      firstUUIDMatch u2.data = some m2 → m1 ≠ m2 →
      onopenSessionUserID cfg1 u1 ≠ onopenSessionUserID cfg2 u2) := by
  refine ⟨?_, ?_, ?_⟩
  · intro cfg u m h
    simp [onopenSessionUserID, getVlessUUID, h]
  · intro cfg u h
    simp [onopenSessionUserID, getVlessUUID, h]
  · intro cfg1 cfg2 u1 u2 m1 m2 h1 h2 hne
    simp only [onopenSessionUserID, getVlessUUID, h1, h2]
    intro hc
    exact hne (by injection hc)

/-- Witness for C4: two concrete URLs with different UUID-shaped substrings
yield different session identifiers under the same configuration. -/
theorem c4_url_determines_session_identifier_witness :
    onopenSessionUserID fallbackUUID urlA ≠ onopenSessionUserID fallbackUUID urlB :=
  c4_url_determines_session_identifier.2.2 fallbackUUID fallbackUUID urlA urlB
    "aaaaaaaa-0000-0000-0000-000000000000".data
    "bbbbbbbb-0000-0000-0000-000000000000".data
    (by decide) (by decide) (by decide)

theorem part000OnChunk_error_hasRemote :
    ∀ uid dOk wOk d s msg, part000OnChunk uid dOk wOk d s = Except.error msg →
      s.hasRemote = true := by
  intro uid dOk wOk d s msg h
  by_contra hn
  have hr : s.hasRemote = false := by simpa using hn
  simp only [part000OnChunk, hr] at h
  split_ifs at h <;> simp_all

/-- Claim C10 (amended half): in part_000's stream-pipe variant an
exception rejecting the WebSocket→remote pipe is caught by the `.catch`
attached to `pipeTo`: the run returns normally with the catch state, whose
WebSocket and TCP connection are both closed and whose log carries the
session's address/port context. -/
theorem c10_part000_pipe_catches_exceptions :
    ∀ uid d dOk wOk rest s msg,
      part000OnChunk uid dOk wOk d s = Except.error msg →
      part000PipeRun uid ((d, dOk, wOk) :: rest) s = part000PipeCatch s ∧
      (part000PipeCatch s).wsOpen = false ∧
      (part000PipeCatch s).remoteClosed = true ∧
      (part000PipeCatch s).logs = s.logs ++
        ["[" ++ s.address ++ ":" ++ s.portLog ++ "] " ++
          "readableWebSocketStream pipeto has exception"] := by
  intro uid d dOk wOk rest s msg h
  have hr := part000OnChunk_error_hasRemote uid dOk wOk d s msg h
  refine ⟨?_, ?_, ?_, ?_⟩
  · simp [part000PipeRun, h]
  · unfold part000PipeCatch
    rw [closeRemote_wsOpen]
    exact closeWebSocket_wsOpen _
  · unfold part000PipeCatch
    apply closeRemote_remoteClosed
    exact closeWebSocket_hasRemote _ |>.trans hr
  · unfold part000PipeCatch
    rw [closeRemote_logs, closeWebSocket_logs]
    rfl

/-- Witness for the amended C10 at a concrete erroring trace: a failing
relay write on a connected part_000 session lands in the pipe's catch with
both legs closed. -/
theorem c10_part000_pipe_catches_exceptions_witness :
    part000PipeRun uid0 [([1, 2], true, false)] connectedSession =
      part000PipeCatch connectedSession ∧
    (part000PipeCatch connectedSession).wsOpen = false ∧
    (part000PipeCatch connectedSession).remoteClosed = true ∧
    (part000PipeCatch connectedSession).logs = connectedSession.logs ++
      ["[" ++ connectedSession.address ++ ":" ++ connectedSession.portLog ++ "] " ++
        "readableWebSocketStream pipeto has exception"] :=
  c10_part000_pipe_catches_exceptions uid0 [1, 2] true false [] connectedSession
    "remoteConnection.write failed" rfl
